import Mathlib

set_option autoImplicit false

/-!
Shallow embedding of `src/server/server.go` (the csesoc.unsw.edu.au backend).

The login handler (lines 142-233), the posts list handler `getAllPosts`
(lines 253-295) and the sponsor delete handler `deleteSponsor` (lines
475-488) are embedded as pure Lean functions.  External collaborators are
modelled explicitly:

* the LDAP directory (`gopkg.in/ldap.v2`) as an oracle structure recording
  whether dialing, binding and searching succeed and which entries a search
  returns (an LDAP server returns only the attributes listed in the search
  request, which the model applies as a projection);
* the JWT library (`dgrijalva/jwt-go`, HS256) at the claim-set level: a
  signed token is its claim set together with the key the HMAC was produced
  with, signing is deterministic, and verification checks the key and the
  expiry (jwt-go treats a token as valid at time `now` iff `now ≤ exp`);
* `crypto/sha256` as an abstract parameter `sha256str : String → String`
  standing for `string(sha256.Sum256([]byte(zid))[:])`;
* the MongoDB collections as Lean lists, with `FindOne` / `InsertOne` /
  `UpdateOne` / `DeleteOne` and the `Find` limit option given their
  documented single-document / limit semantics (limit 0 means unlimited).

`log.Fatal` terminates the whole process; it is modelled as the abnormal
outcome `Outcome.fatal`.  A Go runtime panic (out-of-range index,
`uuid.Must`) is modelled as `Outcome.panicked` / `DeleteOutcome.panicked`.
-/

namespace CsesocServer

/-- Claim set of the Go struct `Claims` (server.go lines 63-67): the SHA-256
hash of the zid (as the byte string `string(hashedZID[:])`), the first-name
attribute, and the embedded `jwt.StandardClaims` expiry in Unix seconds. -/
structure Claims where
  hashedZID : String
  firstName : String
  expiresAt : Int
  deriving DecidableEq, Repr

/-- A signed JWT string as produced by
`jwt.NewWithClaims(jwt.SigningMethodHS256, claims)` followed by
`SignedString(key)`: modelled as the claim set paired with the key the HMAC
signature was produced with.  HS256 signing is deterministic, so two signed
strings are equal exactly when their claims and key agree, which structural
equality captures. -/
structure SignedToken where
  claims : Claims
  signedWith : String
  deriving DecidableEq, Repr

/-- Process-wide signing key, server.go line 179: `jwtKey := []byte("secret_text")`. -/
def jwtKey : String := "secret_text"

/-- Token issuance, server.go lines 181-190: an expiry of `now + ttl`
(`time.Now().Add(ttl)` taken at Unix-seconds granularity), the claim set
`Claims` with the subject hash and first name, signed with `jwtKey`.
The handler always calls this with `ttl = 24*60*60` (`time.Hour * 24`). -/
def issueToken (subjectHash firstName : String) (now ttl : Int) : SignedToken :=
  ⟨⟨subjectHash, firstName, now + ttl⟩, jwtKey⟩

/-- Result of `jwt.ParseWithClaims`: the decoded claim set and the `Valid`
flag of the returned `*jwt.Token`. -/
structure ParsedToken where
  claims : Claims
  valid : Bool
  deriving DecidableEq, Repr

/-- jwt.ParseWithClaims of a stored token string at current time `now` with
key function returning `key`: the claims are decoded from the payload
regardless of validity, and `Valid` holds iff the HMAC verifies against
`key` and the token is not expired (jwt-go `verifyExp`: `now ≤ exp`). -/
def parseWithClaims (t : SignedToken) (key : String) (now : Int) : ParsedToken :=
  ⟨t.claims, t.signedWith == key && decide (now ≤ t.claims.expiresAt)⟩

/-- Calling `SignedString(key)` on a parsed token (server.go line 213)
re-serializes and re-signs the decoded claim set with `key`. -/
def reSign (p : ParsedToken) (key : String) : SignedToken :=
  ⟨p.claims, key⟩

/-- Verification operation of the Token Issuer component: parse with the
process-wide `jwtKey`, as the login handler does at lines 210-212. -/
def verifyToken (t : SignedToken) (now : Int) : ParsedToken :=
  parseWithClaims t jwtKey now

/-- Session record, the Go struct `User` (server.go lines 47-51): the
SHA-256 of the zid as identifier, the latest token, and a role string. -/
structure User where
  userID : String
  userToken : SignedToken
  role : String
  deriving DecidableEq, Repr

/-- collection.FindOne on the users collection with filter
`bson.D that binds userID to uid`: the first stored record whose identifier
matches, if any (decoding leaves the target nil when nothing matches). -/
def findOne (store : List User) (uid : String) : Option User :=
  store.find? (fun u => u.userID == uid)

/-- collection.UpdateOne with filter on `userID` and an update setting
`userToken`: rewrites the token field of the first matching record only. -/
def updateOne (store : List User) (uid : String) (tok : SignedToken) : List User :=
  match store with
  | [] => []
  | u :: rest =>
    if u.userID == uid then ⟨u.userID, tok, u.role⟩ :: rest
    else u :: updateOne rest uid tok

/-- An LDAP search-result entry: a list of attribute name/value pairs. -/
structure LdapEntry where
  attributes : List (String × String)
  deriving DecidableEq, Repr

/-- ldap.Entry.GetAttributeValue: the value of the first attribute with the
given name, or the empty string when the entry carries no such attribute. -/
def LdapEntry.getAttributeValue (e : LdapEntry) (attrName : String) : String :=
  match e.attributes.find? (fun p => p.1 == attrName) with
  | some p => p.2
  | none => ""

/-- Oracle model of the institutional LDAP directory at `ad.unsw.edu.au`:
whether `ldap.Dial` succeeds, which username/password pairs `l.Bind`
accepts, whether `l.Search` succeeds, and the full entries matching a
search filter. -/
structure Directory where
  dialOk : Bool
  bindOk : String → String → Bool
  searchOk : Bool
  entriesFor : String → List LdapEntry

/-- An LDAP search with a `retrieveAttributes` list: the server returns the
matching entries projected onto the requested attribute names (an entry in
the reply carries only attributes that were asked for). -/
def ldapSearch (dir : Directory) (filter : String) (retrieve : List String) :
    List LdapEntry :=
  (dir.entriesFor filter).map fun e =>
    ⟨e.attributes.filter (fun p => retrieve.contains p.1)⟩

/-- Writes the login handler can issue against the users collection. -/
inductive WriteOp where
  | insert : User → WriteOp
  | update : String → SignedToken → WriteOp
  deriving DecidableEq, Repr

/-- Directory-client contacts made by the login handler (the credential
bind at line 156 and the attribute search at line 173). -/
inductive DirOp where
  | bind
  | search
  deriving DecidableEq, Repr

/-- Observable outcome of one login call.  `fatal` is `log.Fatal`, which
terminates the entire process without sending any HTTP response;
`panicked` is a Go runtime panic (index out of range at line 180);
`okJSON t` is the 200 response whose body binds the key token to `t`. -/
inductive Outcome where
  | fatal : String → Outcome
  | panicked : Outcome
  | okJSON : SignedToken → Outcome
  deriving DecidableEq, Repr

/-- Result of one login call: outcome, users collection after the call,
the session-store writes performed, and the directory contacts made. -/
structure LoginResult where
  outcome : Outcome
  store : List User
  writes : List WriteOp
  dirCalls : List DirOp
  deriving Repr

/-- Login handler, server.go lines 142-233, line by line:
dial the directory (`log.Fatal` on error); hash the zid; build
`username = zid + "ad.unsw.edu.au"`; bind with the submitted password
(`log.Fatal` on error); search `cn=username` retrieving only `givenName`
(`log.Fatal` on error); take `Entries[0]` (runtime panic when empty);
issue a 24-hour token whose first-name claim reads attribute `firstName`
from the projected entry; then reconcile the users collection: insert a new
record with role user when none matches the hash, otherwise parse the
*stored* token and, when it is not valid, update the record to the
re-signing `decodedTokenString` of the parsed claims; finally respond 200
with the freshly issued token string. -/
def login (dir : Directory) (sha256str : String → String) (now : Int)
    (store : List User) (zid password : String) : LoginResult :=
  if !dir.dialOk then
    ⟨.fatal "ldap dial", store, [], []⟩
  else
    let hashedZID := sha256str zid
    let username := zid ++ "ad.unsw.edu.au"
    if !dir.bindOk username password then
      ⟨.fatal "ldap bind", store, [], [.bind]⟩
    else if !dir.searchOk then
      ⟨.fatal "ldap search", store, [], [.bind, .search]⟩
    else
      match ldapSearch dir ("cn=" ++ username) ["givenName"] with
      | [] => ⟨.panicked, store, [], [.bind, .search]⟩
      | userFound :: _ =>
        let tokenString :=
          issueToken hashedZID (userFound.getAttributeValue "firstName") now (24 * 60 * 60)
        let user : User := ⟨hashedZID, tokenString, "user"⟩
        match findOne store hashedZID with
        | none =>
          ⟨.okJSON tokenString, store ++ [user], [.insert user], [.bind, .search]⟩
        | some isValidUser =>
          let decodedToken := parseWithClaims isValidUser.userToken jwtKey now
          let decodedTokenString := reSign decodedToken jwtKey
          if !decodedToken.valid then
            ⟨.okJSON tokenString, updateOne store hashedZID decodedTokenString,
              [.update hashedZID decodedTokenString], [.bind, .search]⟩
          else
            ⟨.okJSON tokenString, store, [], [.bind, .search]⟩

/-- The token the handler issues at lines 179-190 for a given directory,
hash function, time and zid: defined whenever the attribute search returns
at least one entry. -/
def issuedToken (dir : Directory) (sha256str : String → String) (now : Int)
    (zid : String) : Option SignedToken :=
  match ldapSearch dir ("cn=" ++ (zid ++ "ad.unsw.edu.au")) ["givenName"] with
  | [] => none
  | userFound :: _ =>
    some (issueToken (sha256str zid) (userFound.getAttributeValue "firstName")
      now (24 * 60 * 60))

/-- Largest value of Go's int64. -/
def int64Max : Int := 9223372036854775807

/-- Smallest value of Go's int64. -/
def int64Min : Int := -9223372036854775808

/-- strconv.Atoi as the handlers use it (the error return is discarded):
an optional sign followed by at least one decimal digit parses to its
value clamped to the int64 range (ParseInt returns the clamped bound
together with a range error, which the callers ignore); anything else —
the empty string for an absent parameter, or non-numeric text — yields 0. -/
def goAtoi (s : String) : Int :=
  let signed : Int × List Char :=
    match s.toList with
    | '+' :: rest => (1, rest)
    | '-' :: rest => (-1, rest)
    | rest => (1, rest)
  if signed.2 = [] then 0
  else if signed.2.all Char.isDigit then
    let n : Int := signed.2.foldl (fun acc c => acc * 10 + (Int.ofNat (c.toNat - 48))) 0
    let v := signed.1 * n
    if v > int64Max then int64Max
    else if v < int64Min then int64Min
    else v
  else 0

/-- A stored document of the posts collection, reduced to the fields the
list handler touches: an identifier to tell documents apart and the raw
`post_category` field its category filter matches on. -/
structure PostDoc where
  docID : Int
  post_category : String
  deriving DecidableEq, Repr

/-- Effect of the `FindOptions.SetLimit` option on a Mongo `Find`: a limit
of 0 returns every matching document, a non-zero limit `n` returns at most
the first `n` matching documents in stored order (a negative limit behaves
as its absolute value). -/
def applyLimit (n : Int) (docs : List PostDoc) : List PostDoc :=
  if n = 0 then docs else docs.take n.natAbs

/-- Response of the posts list handler: the limit it configured and the
documents it returned in `posts`. -/
structure PostsResponse where
  limit : Int
  posts : List PostDoc
  deriving DecidableEq, Repr

/-- getAllPosts handler, server.go lines 253-295: the query parameter `id`
is parsed with Atoi into `count`; the limit option is set to `count` when
`count != 10` and to 10 otherwise; with no `category` parameter the find
runs unfiltered, otherwise it filters on the `post_category` field; the
cursor's documents are returned in stored order. -/
def getAllPosts (collection : List PostDoc) (idParam catParam : String) :
    PostsResponse :=
  let count := goAtoi idParam
  let limit : Int := if count ≠ 10 then count else 10
  let matching :=
    if catParam == "" then collection
    else collection.filter (fun p => p.post_category == catParam)
  ⟨limit, applyLimit limit matching⟩

/-- Value of a hexadecimal digit character, when it is one. -/
def hexVal? (c : Char) : Option Nat :=
  if '0' ≤ c ∧ c ≤ '9' then some (c.toNat - 48)
  else if 'a' ≤ c ∧ c ≤ 'f' then some (c.toNat - 87)
  else if 'A' ≤ c ∧ c ≤ 'F' then some (c.toNat - 55)
  else none

/-- google/uuid `xtob`: two hex digits to a byte. -/
def xtob? (c1 c2 : Char) : Option Nat :=
  match hexVal? c1, hexVal? c2 with
  | some x1, some x2 => some (x1 * 16 + x2)
  | _, _ => none

/-- Decodes the byte pairs of a UUID string at the given start indices,
failing if any position is missing or not hexadecimal. -/
def parseHexPairs (s : List Char) (positions : List Nat) : Option (List Nat) :=
  match positions with
  | [] => some []
  | x :: rest =>
    match s[x]?, s[x + 1]? with
    | some c1, some c2 =>
      match xtob? c1 c2, parseHexPairs s rest with
      | some b, some bs => some (b :: bs)
      | _, _ => none
    | _, _ => none

/-- Dash indices of the canonical 36-character UUID form. -/
def dashPositions : List Nat := [8, 13, 18, 23]

/-- Byte-pair start indices of the canonical 36-character UUID form. -/
def bytePositions : List Nat :=
  [0, 2, 4, 6, 9, 11, 14, 16, 19, 21, 24, 26, 28, 30, 32, 34]

/-- Canonical-form tail of google/uuid `Parse`: dashes at indices 8, 13,
18, 23 and sixteen hex byte pairs at the canonical offsets. -/
def parseCanonical (s : List Char) : Option (List Nat) :=
  if dashPositions.all (fun i => s[i]? == some '-') then
    parseHexPairs s bytePositions
  else none

/-- google/uuid `Parse`: accepts the canonical 36-character form, the
urn:uuid: prefixed 45-character form (prefix compared case-insensitively),
a 38-character form whose first character is skipped, and the plain
32-hex-digit form; every other length is rejected.  Returns the sixteen
bytes of the UUID. -/
def uuidParse (str : String) : Option (List Nat) :=
  let s := str.toList
  if s.length = 36 then parseCanonical s
  else if s.length = 45 then
    if (s.take 9).map Char.toLower = "urn:uuid:".toList then
      parseCanonical (s.drop 9)
    else none
  else if s.length = 38 then parseCanonical (s.drop 1)
  else if s.length = 32 then
    parseHexPairs s [0, 2, 4, 6, 8, 10, 12, 14, 16, 18, 20, 22, 24, 26, 28, 30]
  else none

/-- A stored document of the sponsors collection, reduced to the
`sponsorID` field the delete handler filters on (a UUID as 16 bytes). -/
structure SponsorDoc where
  sponsorID : List Nat
  deriving DecidableEq, Repr

/-- Observable outcome of one DELETE /sponsor/ call: `panicked` is the Go
runtime abort raised by `uuid.Must` on a parse error, `okJSON` the 200
response with an empty object body. -/
inductive DeleteOutcome where
  | panicked
  | okJSON
  deriving DecidableEq, Repr

/-- Result of one DELETE /sponsor/ call: outcome, sponsors collection
after the call, and how many storage operations were performed. -/
structure DeleteResult where
  outcome : DeleteOutcome
  store : List SponsorDoc
  storageCalls : Nat
  deriving DecidableEq, Repr

/-- collection.DeleteOne with filter on `sponsorID`: removes the first
matching document only. -/
def deleteOneSponsor (collection : List SponsorDoc) (uid : List Nat) :
    List SponsorDoc :=
  match collection with
  | [] => []
  | d :: rest =>
    if d.sponsorID == uid then rest else d :: deleteOneSponsor rest uid

/-- deleteSponsor handler, server.go lines 475-488: the `id` form field is
parsed with `uuid.Must(uuid.Parse(id))` — a parse failure makes `Must`
abort the call with a runtime panic before any storage operation — and on
success `DeleteOne` removes the sponsor whose `sponsorID` matches, then the
handler responds 200 with an empty object. -/
def deleteSponsor (collection : List SponsorDoc) (idField : String) :
    DeleteResult :=
  match uuidParse idField with
  | none => ⟨.panicked, collection, 0⟩
  | some parsedID => ⟨.okJSON, deleteOneSponsor collection parsedID, 1⟩

/-- Sample directory entry: a person whose givenName is Alice.  The entry
also carries a second attribute, which a search not asking for it drops. -/
def alicePerson : LdapEntry := ⟨[("givenName", "Alice"), ("sn", "Smith")]⟩

/-- Sample directory: dialing and searching succeed, every bind is
accepted, and every search filter matches the single entry alicePerson. -/
def okDir : Directory := ⟨true, fun _ _ => true, true, fun _ => [alicePerson]⟩

/-- Sample directory that rejects every bind (wrong credentials). -/
def rejectDir : Directory := ⟨true, fun _ _ => false, true, fun _ => [alicePerson]⟩

/-- Identity stand-in for the SHA-256 hash in concrete examples. -/
def idHash : String → String := fun s => s

/-- The token login issues at time 0 for zid z1 against okDir under
idHash: its first-name claim is empty because the search retrieves only
givenName while the handler reads the attribute named firstName. -/
def freshTok : SignedToken := ⟨⟨"z1", "", 86400⟩, jwtKey⟩

/-- A stored token for z1 signed with the server key but long expired. -/
def staleTok : SignedToken := ⟨⟨"z1", "Alice", -100⟩, jwtKey⟩

/-- A stored token for z1 signed with the server key, valid until time 100. -/
def validTok : SignedToken := ⟨⟨"z1", "Alice", 100⟩, jwtKey⟩

/-- Sample posts collection with eleven uncategorized documents. -/
def demoPosts : List PostDoc := (List.range 11).map fun i => ⟨Int.ofNat i, ""⟩

/-- C1: the claim fails on the code as written.  At a login whose
credentials the directory rejects — and likewise when dialing the
directory fails — the handler reaches log.Fatal, which terminates the
whole process (Outcome.fatal) instead of answering the request with an
authentication error; no session record is created or updated on the way
(the store is unchanged and the write list empty). -/
theorem c1_invalid_credentials_fatal_no_response :
    login rejectDir idHash 0 [] "z1111111" "wrongpass" =
      ⟨Outcome.fatal "ldap bind", [], [], [DirOp.bind]⟩
    ∧ login ⟨false, fun _ _ => true, true, fun _ => [alicePerson]⟩ idHash 0 []
        "z1111111" "pw" = ⟨Outcome.fatal "ldap dial", [], [], []⟩ :=
  ⟨rfl, rfl⟩

/-- C2: the claim fails on the code.  With a stored record for z1 whose
token is signed with the server key but expired, login takes the
invalid-stored-token branch, yet the update writes decodedTokenString —
the re-signing of the parsed stored claims — rather than the freshly
issued token: the stored token field afterwards still equals the old
stale token and differs from the token returned to the caller. -/
theorem c2_update_writes_stale_token :
    (login okDir idHash 0 [⟨"z1", staleTok, "user"⟩] "z1" "pw").writes
        = [WriteOp.update "z1" staleTok]
    ∧ (login okDir idHash 0 [⟨"z1", staleTok, "user"⟩] "z1" "pw").store
        = [⟨"z1", staleTok, "user"⟩]
    ∧ (login okDir idHash 0 [⟨"z1", staleTok, "user"⟩] "z1" "pw").outcome
        = Outcome.okJSON freshTok
    ∧ staleTok ≠ freshTok :=
  ⟨rfl, rfl, rfl, by decide⟩

/-- C3: the claim fails on the code.  A first-ever login inserts exactly
one session record with role user and the freshly issued token, and the
token's subject-hash claim is the hash of the zid — but its first-name
claim is the empty string, not the display name the directory holds,
because the search requests only the attribute givenName while the
handler reads the attribute named firstName from the result. -/
theorem c3_first_login_insert_but_empty_name :
    (login okDir idHash 0 [] "z1" "pw").writes
        = [WriteOp.insert ⟨"z1", freshTok, "user"⟩]
    ∧ (login okDir idHash 0 [] "z1" "pw").store = [⟨"z1", freshTok, "user"⟩]
    ∧ (login okDir idHash 0 [] "z1" "pw").outcome = Outcome.okJSON freshTok
    ∧ freshTok.claims.hashedZID = idHash "z1"
    ∧ alicePerson.getAttributeValue "givenName" = "Alice"
    ∧ freshTok.claims.firstName = "" :=
  ⟨rfl, rfl, rfl, rfl, rfl, rfl⟩

/-- C6: confirmed.  Verifying a token straight after issuance succeeds,
and verifying it at any time strictly after its expiry `issueTime + ttl`
fails (jwt-go counts the token as live up to and including the expiry
second itself). -/
theorem c6_issue_verify_roundtrip (subjectHash displayName : String)
    (t0 ttl t1 : Int) (httl : 0 < ttl) (hlate : t0 + ttl < t1) :
    (verifyToken (issueToken subjectHash displayName t0 ttl) t0).valid = true
    ∧ (verifyToken (issueToken subjectHash displayName t0 ttl) t1).valid = false := by
  constructor <;>
    simp only [verifyToken, parseWithClaims, issueToken, beq_self_eq_true,
      Bool.true_and, decide_eq_true_eq, decide_eq_false_iff_not] <;>
    omega

/-- C6 witness: the round trip at the handler's 24-hour ttl, checked at
issue time 0 and one second past expiry. -/
theorem c6_issue_verify_roundtrip_witness :
    (verifyToken (issueToken "z1" "Alice" 0 86400) 0).valid = true
    ∧ (verifyToken (issueToken "z1" "Alice" 0 86400) 86401).valid = false :=
  c6_issue_verify_roundtrip "z1" "Alice" 0 86400 86401 (by decide) (by decide)

/-- C4: confirmed.  When the directory accepts the credentials, the
attribute search returns an entry, a session record for the subject hash
exists, and its stored token verifies — signed with the server key and not
expired — the login call leaves the users collection exactly as it was and
performs no write, yet still answers 200 with the freshly issued token. -/
theorem c4_valid_stored_token_no_mutation
    (dir : Directory) (sha256str : String → String) (now : Int)
    (store : List User) (zid password : String) (e : LdapEntry)
    (es : List LdapEntry) (u : User)
    (hdial : dir.dialOk = true)
    (hbind : dir.bindOk (zid ++ "ad.unsw.edu.au") password = true)
    (hsearch : dir.searchOk = true)
    (hentries : ldapSearch dir ("cn=" ++ (zid ++ "ad.unsw.edu.au")) ["givenName"]
        = e :: es)
    (hfound : findOne store (sha256str zid) = some u)
    (hkey : u.userToken.signedWith = jwtKey)
    (hfreshness : now ≤ u.userToken.claims.expiresAt) :
    (login dir sha256str now store zid password).store = store
    ∧ (login dir sha256str now store zid password).writes = []
    ∧ (login dir sha256str now store zid password).outcome =
        Outcome.okJSON (issueToken (sha256str zid)
          (e.getAttributeValue "firstName") now (24 * 60 * 60)) := by
  have hvalid : (parseWithClaims u.userToken jwtKey now).valid = true := by
    simp [parseWithClaims, hkey, hfreshness]
  simp [login, hdial, hbind, hsearch, hentries, hfound, hvalid]

/-- C4 witness: a second login for z1 at time 0 with the still-valid
stored token leaves the store alone and returns the fresh token. -/
theorem c4_valid_stored_token_no_mutation_witness :
    (login okDir idHash 0 [⟨"z1", validTok, "user"⟩] "z1" "pw").store
        = [⟨"z1", validTok, "user"⟩]
    ∧ (login okDir idHash 0 [⟨"z1", validTok, "user"⟩] "z1" "pw").writes = []
    ∧ (login okDir idHash 0 [⟨"z1", validTok, "user"⟩] "z1" "pw").outcome =
        Outcome.okJSON (issueToken (idHash "z1")
          (LdapEntry.getAttributeValue ⟨[("givenName", "Alice")]⟩ "firstName")
          0 (24 * 60 * 60)) :=
  c4_valid_stored_token_no_mutation okDir idHash 0 [⟨"z1", validTok, "user"⟩]
    "z1" "pw" ⟨[("givenName", "Alice")]⟩ [] ⟨"z1", validTok, "user"⟩
    rfl rfl rfl (by decide) (by decide) rfl (by decide)

/-- C5: confirmed.  Whenever a login call completes with a 200 response,
the token carried in the response body is exactly the freshly issued token
of that call, whichever of the three session branches was taken. -/
theorem c5_response_carries_issued_token
    (dir : Directory) (sha256str : String → String) (now : Int)
    (store : List User) (zid password : String) (t : SignedToken)
    (hok : (login dir sha256str now store zid password).outcome
        = Outcome.okJSON t) :
    issuedToken dir sha256str now zid = some t := by
  unfold issuedToken
  simp only [login] at hok
  split at hok
  · simp at hok
  · split at hok
    · simp at hok
    · split at hok
      · simp at hok
      · split at hok
        · simp at hok
        · split at hok
          · simp only [Outcome.okJSON.injEq] at hok
            rw [hok]
          · split at hok <;>
              · simp only [Outcome.okJSON.injEq] at hok
                rw [hok]

/-- C5 witness: the first-ever login of z1 against the sample directory
answers with exactly the token the issuance step produced. -/
theorem c5_response_carries_issued_token_witness :
    issuedToken okDir idHash 0 "z1" = some freshTok :=
  c5_response_carries_issued_token okDir idHash 0 [] "z1" "pw" freshTok rfl

/-- C7: confirmed.  With id set to 5 the posts handler returns at most
five documents, and in general, for every positive parsed count, the
number of returned documents is bounded by that count — the limit applied
is the requested count when it differs from the sentinel 10 and 10 (the
same number) otherwise. -/
theorem c7_posts_limit_is_requested_count :
    (∀ collection : List PostDoc,
      ((getAllPosts collection "5" "").posts).length ≤ 5)
    ∧ ∀ (collection : List PostDoc) (s : String), 0 < goAtoi s →
        ((getAllPosts collection s "").posts).length ≤ (goAtoi s).natAbs := by
  have general : ∀ (collection : List PostDoc) (s : String), 0 < goAtoi s →
      ((getAllPosts collection s "").posts).length ≤ (goAtoi s).natAbs := by
    intro collection s h
    by_cases hc : goAtoi s = 10
    · simp [getAllPosts, applyLimit, hc, List.length_take]
    · have hne : goAtoi s ≠ 0 := by omega
      simp [getAllPosts, applyLimit, hc, hne, List.length_take]
  refine ⟨fun collection => ?_, general⟩
  have h5 : goAtoi "5" = 5 := by decide
  have := general collection "5" (by decide)
  simpa [h5] using this

/-- C7 witness: eleven stored posts listed with id 7 yield at most seven
documents. -/
theorem c7_posts_limit_is_requested_count_witness :
    ((getAllPosts demoPosts "7" "").posts).length ≤ (goAtoi "7").natAbs :=
  c7_posts_limit_is_requested_count.2 demoPosts "7" (by decide)

/-- C8 counterexample: it is not the case that every single login call
contacts the directory exactly twice — a call whose bind the directory
rejects has made exactly one contact (the bind) when the process aborts. -/
theorem c8_single_contact_on_rejected_bind :
    (login rejectDir idHash 0 [] "z1" "pw").dirCalls = [DirOp.bind]
    ∧ (login rejectDir idHash 0 [] "z1" "pw").dirCalls.length ≠ 2 :=
  ⟨rfl, by decide⟩

/-- C8 amended: every login call performs at most one session-store write
— nothing, exactly one insert, or exactly one update, never both and
never more — and every call that completes with a 200 response has
contacted the directory exactly twice: the credential bind followed by
the attribute search. -/
theorem c8_write_discipline
    (dir : Directory) (sha256str : String → String) (now : Int)
    (store : List User) (zid password : String) :
    ((login dir sha256str now store zid password).writes = []
      ∨ (∃ u, (login dir sha256str now store zid password).writes
            = [WriteOp.insert u])
      ∨ (∃ uid tok, (login dir sha256str now store zid password).writes
            = [WriteOp.update uid tok]))
    ∧ ∀ t, (login dir sha256str now store zid password).outcome
          = Outcome.okJSON t →
        (login dir sha256str now store zid password).dirCalls
          = [DirOp.bind, DirOp.search] := by
  simp only [login]
  repeat' split
  all_goals simp

/-- C8 witness: a completing first-ever login performed its two directory
contacts in order. -/
theorem c8_write_discipline_witness :
    (login okDir idHash 0 [] "z1" "pw").dirCalls = [DirOp.bind, DirOp.search] :=
  (c8_write_discipline okDir idHash 0 [] "z1" "pw").2 freshTok rfl

/-- C9: confirmed.  An absent id parameter (the empty string) and
non-numeric text both Atoi-parse to 0, and a parsed count of 0 makes the
handler set the find limit to 0 — unlimited in the record store — so the
response carries every stored post instead of being capped at 10. -/
theorem c9_zero_count_returns_everything :
    goAtoi "" = 0 ∧ goAtoi "not-a-number" = 0
    ∧ ∀ (collection : List PostDoc) (s : String), goAtoi s = 0 →
        (getAllPosts collection s "").posts = collection
        ∧ (getAllPosts collection s "").limit = 0 := by
  refine ⟨by decide, by decide, ?_⟩
  intro collection s h
  constructor <;> simp [getAllPosts, applyLimit, h]

/-- C9 witness: with no id parameter all eleven sample posts come back. -/
theorem c9_zero_count_returns_everything_witness :
    (getAllPosts demoPosts "" "").posts = demoPosts
    ∧ (getAllPosts demoPosts "" "").limit = 0 :=
  c9_zero_count_returns_everything.2.2 demoPosts "" (by decide)

/-- C10: confirmed.  The string not-a-uuid fails uuid.Parse; on every id
that fails to parse, the handler aborts with the uuid.Must runtime panic
before any storage operation — the sponsors collection is untouched and
zero storage calls are made — and conversely, whenever the id does parse,
the handler completes with the 200 response. -/
theorem c10_delete_sponsor_panics_on_malformed_id :
    uuidParse "not-a-uuid" = none
    ∧ (∀ (collection : List SponsorDoc) (idField : String),
        uuidParse idField = none →
          deleteSponsor collection idField
            = ⟨DeleteOutcome.panicked, collection, 0⟩)
    ∧ ∀ (collection : List SponsorDoc) (idField : String) (u : List Nat),
        uuidParse idField = some u →
          (deleteSponsor collection idField).outcome = DeleteOutcome.okJSON := by
  refine ⟨by decide, ?_, ?_⟩
  · intro collection idField h
    simp [deleteSponsor, h]
  · intro collection idField u h
    simp [deleteSponsor, h]

/-- C10 witness: deleting with a malformed id panics and leaves the one
stored sponsor in place. -/
theorem c10_delete_sponsor_panics_on_malformed_id_witness :
    deleteSponsor [⟨List.replicate 16 0⟩] "not-a-uuid"
      = ⟨DeleteOutcome.panicked, [⟨List.replicate 16 0⟩], 0⟩ :=
  c10_delete_sponsor_panics_on_malformed_id.2.1 [⟨List.replicate 16 0⟩]
    "not-a-uuid" (by decide)

end CsesocServer
